import Mathlib

/-
Verification of the tea-shop order/payment backend (src/backend/server.py).

Shallow embedding: the Mongo order collection is a list of Order records in
insertion order; insert_one appends, update_one rewrites the first document
matching the filter, find_one returns the first match.  Monetary floats are
modelled as rationals.  The outbound gateway call is modelled by a
GatewayReply value: either an exception raised anywhere inside the try block
of create_payment_session (requests.post, raise_for_status, response.json,
result.get on a non-dict) or a parsed JSON reply.  Each HTTP handler is a
function from its inputs and the store to the new store and its response;
exception points inside a handler (form parsing, the db update) appear as
explicit parameters.

A behavioural note that matters below: in initiate_payment and
get_payment_status the raise HTTPException(400/404) statements stand inside
try blocks whose except Exception clause catches HTTPException too (it
subclasses Exception) and re-raises a generic 500.  The embedding reproduces
that actual behaviour.
-/

namespace TeaShop

structure CustomerInfo where
  name : String
  email : String
  phone : String
  address_line1 : String
  address_line2 : Option String
  city : String
  postal_code : String
  country : String
deriving DecidableEq, Repr

structure OrderItem where
  product_id : String
  product_title : String
  quantity : Int
  unit_price : Rat
  total_price : Rat
deriving DecidableEq, Repr

structure Order where
  id : String
  customer : CustomerInfo
  items : List OrderItem
  subtotal : Rat
  shipping_cost : Rat
  total_amount : Rat
  status : String
  payment_status : String
  transaction_id : Option String
  created_at : Nat
deriving DecidableEq, Repr

/-- The orders collection, in insertion order. -/
structure Store where
  orders : List Order
deriving DecidableEq, Repr

/-- db.orders.insert_one: append the document. -/
def insertOne (s : Store) (o : Order) : Store := ⟨s.orders ++ [o]⟩

/-- db.orders.update_one: rewrite the first document satisfying the filter. -/
def updateFirst (p : Order → Bool) (f : Order → Order) : List Order → List Order
  | [] => []
  | o :: rest => if p o then f o :: rest else o :: updateFirst p f rest

/-- db.orders.find_one: first document satisfying the filter. -/
def findFirst (p : Order → Bool) (s : Store) : Option Order := s.orders.find? p

/-- Parsed JSON reply from the gateway; every field the code reads is optional. -/
structure GwJson where
  status : Option String
  failedreason : Option String
  sessionkey : Option String
  gatewayPageURL : Option String
deriving DecidableEq, Repr

/-- Behaviour of the outbound gateway POST: either some exception is raised
inside the try block (timeout, connection error, raise_for_status on a
non-2xx, JSON parse failure, attribute error on a non-dict body), carrying
the text interpolated into the error message, or a JSON reply is parsed. -/
inductive GatewayReply where
  | exn (msg : String)
  | json (reply : GwJson)
deriving DecidableEq, Repr

/-- The dictionary returned by SSLCommerzService.create_payment_session,
with the keys that vary per branch as options. -/
structure SessionResult where
  success : Bool
  transaction_id : Option String
  session_key : Option String
  gateway_url : Option String
  error : Option String
deriving DecidableEq, Repr

/-- SSLCommerzService.create_payment_session.  tid is the locally generated
transaction id.  Total over every gateway behaviour: the except branch of the
source is the GatewayReply.exn case, so no exception escapes to the caller. -/
def create_payment_session (tid : String) (gw : GatewayReply) : SessionResult :=
  match gw with
  | .exn msg =>
      { success := false, transaction_id := none, session_key := none,
        gateway_url := none, error := some ("Network error: " ++ msg) }
  | .json r =>
      if r.status = some "SUCCESS" then
        { success := true, transaction_id := some tid,
          session_key := r.sessionkey, gateway_url := r.gatewayPageURL,
          error := none }
      else
        { success := false, transaction_id := none, session_key := none,
          gateway_url := none,
          error := some (r.failedreason.getD "Payment session creation failed") }

/-- Response of POST /payments/initiate: either the success dictionary or an
HTTPException with a status code and detail string. -/
inductive InitiateResult where
  | ok (transaction_id : String) (gateway_url : Option String)
      (session_key : Option String)
  | httpError (code : Nat) (detail : String)
deriving DecidableEq, Repr

/-- POST /payments/initiate.  Reproduces the actual control flow: the two
validation raises of HTTPException(400, ...) and the gateway-failure raise of
HTTPException(400, error) all stand inside the try block, so the blanket
except Exception clause catches them and re-raises
HTTPException(500, "Payment initiation failed"). -/
def initiate_payment (order : Order) (tid : String) (gw : GatewayReply)
    (s : Store) : Store × InitiateResult :=
  if order.items = [] then
    (s, .httpError 500 "Payment initiation failed")
  else if order.total_amount ≤ 0 then
    (s, .httpError 500 "Payment initiation failed")
  else
    let s1 := insertOne s order
    let res := create_payment_session tid gw
    if res.success then
      (⟨updateFirst (fun o => decide (o.id = order.id))
          (fun o => { o with transaction_id := res.transaction_id }) s1.orders⟩,
       .ok tid res.gateway_url res.session_key)
    else
      (s1, .httpError 500 "Payment initiation failed")

/-- Response of GET /payments/status. -/
inductive StatusResult where
  | ok (transaction_id : String) (status : String) (amount : Rat)
      (currency : String)
  | httpError (code : Nat) (detail : String)
deriving DecidableEq, Repr

/-- GET /payments/status.  When no order matches, the code raises
HTTPException(404, "Transaction not found") inside the try block; the except
Exception clause catches it and re-raises HTTPException(500, ...), so the
observable response for an unknown transaction id is the 500. -/
def get_payment_status (tid : String) (s : Store) : StatusResult :=
  match findFirst (fun o => decide (o.transaction_id = some tid)) s with
  | none => .httpError 500 "Status retrieval failed"
  | some o => .ok tid o.payment_status o.total_amount "BDT"

/-- The three gateway outcome callbacks. -/
inductive Outcome where
  | success
  | fail
  | cancel
deriving DecidableEq, Repr

/-- payment_status value written by each callback. -/
def outcomePayStatus : Outcome → String
  | .success => "completed"
  | .fail => "failed"
  | .cancel => "cancelled"

/-- status value written by each callback. -/
def outcomeOrderStatus : Outcome → String
  | .success => "confirmed"
  | .fail => "cancelled"
  | .cancel => "cancelled"

/-- Path segment of the front-end redirect for each callback. -/
def outcomePage : Outcome → String
  | .success => "success"
  | .fail => "failed"
  | .cancel => "cancelled"

/-- Python f-string rendering of payment_data.get, which is None when the
form carries no tran_id field. -/
def strOfOptTran : Option String → String
  | some t => t
  | none => "None"

/-- Result of await request.form() followed by .get: either the parse raises,
or it yields the optional tran_id field. -/
inductive FormResult where
  | ok (tranId : Option String)
  | exn
deriving DecidableEq, Repr

/-- An HTTP redirect response. -/
structure Redirect where
  url : String
  statusCode : Nat
deriving DecidableEq, Repr

/-- The db.orders.update_one performed by a callback: the filter is
transaction_id equal to the (possibly missing, hence null) tran_id value, and
the update sets payment_status and status of the first match. -/
def applyOutcome (out : Outcome) (tranId : Option String) (s : Store) : Store :=
  ⟨updateFirst (fun o => decide (o.transaction_id = tranId))
    (fun o => { o with payment_status := outcomePayStatus out,
                       status := outcomeOrderStatus out }) s.orders⟩

/-- One of the POST /payments/success, /payments/fail, /payments/cancel
handlers.  fb is the resolved FRONTEND_URL.  dbFails models the db update
raising; any exception lands in the except branch, which redirects to the
error page with the store unchanged. -/
def paymentCallback (out : Outcome) (fb : String) (form : FormResult)
    (dbFails : Bool) (s : Store) : Store × Redirect :=
  match form with
  | .exn => (s, ⟨fb ++ "/payment/error", 303⟩)
  | .ok tranId =>
      if dbFails then (s, ⟨fb ++ "/payment/error", 303⟩)
      else (applyOutcome out tranId s,
            ⟨fb ++ "/payment/" ++ outcomePage out ++ "?transaction_id="
               ++ strOfOptTran tranId, 303⟩)

/-- POST /orders: insert the client-supplied order as given. -/
def create_order (s : Store) (o : Order) : Store := insertOne s o

/-- One invocation of a store-mutating public operation. -/
inductive Event where
  | createOrder (o : Order)
  | initiatePayment (o : Order) (tid : String) (gw : GatewayReply)
  | gwCallback (out : Outcome) (fb : String) (form : FormResult)
      (dbFails : Bool)
deriving Repr

/-- Effect of one public operation on the store. -/
def stepStore (s : Store) (e : Event) : Store :=
  match e with
  | .createOrder o => create_order s o
  | .initiatePayment o tid gw => (initiate_payment o tid gw s).1
  | .gwCallback out fb form dbFails => (paymentCallback out fb form dbFails s).1

/-- Stores reachable from the empty collection through the public operations. -/
inductive Reachable : Store → Prop where
  | init : Reachable ⟨[]⟩
  | step (s : Store) (e : Event) : Reachable s → Reachable (stepStore s e)

/-- status lies in the business-lifecycle enumeration of the spec. -/
def statusOk (o : Order) : Prop :=
  o.status = "pending" ∨ o.status = "confirmed" ∨ o.status = "cancelled"

/-- payment_status lies in the payment-lifecycle enumeration of the spec. -/
def payOk (o : Order) : Prop :=
  o.payment_status = "pending" ∨ o.payment_status = "completed" ∨
  o.payment_status = "failed" ∨ o.payment_status = "cancelled"

/-- The (status, payment_status) pair is one of the four combinations the
spec allows. -/
def pairOk (o : Order) : Prop :=
  (o.status = "pending" ∧ o.payment_status = "pending") ∨
  (o.status = "confirmed" ∧ o.payment_status = "completed") ∨
  (o.status = "cancelled" ∧ o.payment_status = "failed") ∨
  (o.status = "cancelled" ∧ o.payment_status = "cancelled")

/-- Events whose client-supplied order carries the initial lifecycle values. -/
def goodEvent : Event → Prop
  | .createOrder o => o.status = "pending" ∧ o.payment_status = "pending"
  | .initiatePayment o _ _ => o.status = "pending" ∧ o.payment_status = "pending"
  | .gwCallback _ _ _ _ => True

/-- Stores reachable through public operations whose submitted orders all
start in the initial pending/pending state. -/
inductive ReachableG : Store → Prop where
  | init : ReachableG ⟨[]⟩
  | step (s : Store) (e : Event) : ReachableG s → goodEvent e →
      ReachableG (stepStore s e)

/-- A concrete customer used by witnesses. -/
def sampleCustomer : CustomerInfo :=
  { name := "Test Customer", email := "test@example.com",
    phone := "+8801234567890", address_line1 := "123 Test Street",
    address_line2 := none, city := "Dhaka", postal_code := "1000",
    country := "Bangladesh" }

/-- A concrete line item used by witnesses. -/
def sampleItem : OrderItem :=
  { product_id := "p1", product_title := "Earl Grey Premium", quantity := 2,
    unit_price := 450, total_price := 900 }

/-- A concrete freshly created order used by witnesses. -/
def sampleOrder : Order :=
  { id := "o1", customer := sampleCustomer, items := [sampleItem],
    subtotal := 900, shipping_cost := 50, total_amount := 950,
    status := "pending", payment_status := "pending",
    transaction_id := none, created_at := 0 }

/-- sampleOrder with a transaction id attached. -/
def sampleOrderTid : Order := { sampleOrder with transaction_id := some "T1" }

/-- A second pending order with no transaction id, distinct from sampleOrder. -/
def sampleOrder2 : Order := { sampleOrder with id := "o2" }

/-- An order whose client-supplied lifecycle fields are outside both
enumerations, as POST /orders accepts. -/
def badOrder : Order :=
  { sampleOrder with
    id := "o3"
    status := "shipped"
    payment_status := "paid" }

/-- update_one skips a leading block of documents that fail the filter. -/
theorem updateFirst_append_none (p : Order → Bool) (f : Order → Order)
    (l1 l2 : List Order) (h : ∀ o ∈ l1, p o = false) :
    updateFirst p f (l1 ++ l2) = l1 ++ updateFirst p f l2 := by
  induction l1 with
  | nil => simp
  | cons a l ih =>
      simp only [List.cons_append, updateFirst, h a (by simp),
        Bool.false_eq_true, if_false, List.cons.injEq, true_and]
      exact ih (fun o ho => h o (by simp [ho]))

/-- When the rewrite preserves the filter and is itself idempotent, applying
update_one twice equals applying it once. -/
theorem updateFirst_idem (p : Order → Bool) (f : Order → Order)
    (hp : ∀ o, p (f o) = p o) (hf : ∀ o, f (f o) = f o) (l : List Order) :
    updateFirst p f (updateFirst p f l) = updateFirst p f l := by
  induction l with
  | nil => rfl
  | cons a l ih =>
      by_cases h : p a = true
      · simp only [updateFirst, h, if_true, hp a, hf a]
      · simp only [updateFirst, h, Bool.false_eq_true, if_false, ih]

/-- Every document after update_one is an old document or the rewrite of an
old document. -/
theorem updateFirst_mem (p : Order → Bool) (f : Order → Order)
    (l : List Order) (o' : Order) (h : o' ∈ updateFirst p f l) :
    o' ∈ l ∨ ∃ o ∈ l, o' = f o := by
  induction l with
  | nil => simp [updateFirst] at h
  | cons a l ih =>
      simp only [updateFirst] at h
      by_cases hpa : p a = true
      · rw [if_pos hpa] at h
        rcases List.mem_cons.mp h with h1 | h1
        · exact Or.inr ⟨a, by simp, h1⟩
        · exact Or.inl (by simp [h1])
      · rw [if_neg hpa] at h
        rcases List.mem_cons.mp h with h1 | h1
        · exact Or.inl (by simp [h1])
        · rcases ih h1 with h2 | ⟨o, ho, h3⟩
          · exact Or.inl (by simp [h2])
          · exact Or.inr ⟨o, by simp [ho], h3⟩

/-- A callback update on a store split around the first document carrying the
target transaction id rewrites exactly that document. -/
theorem applyOutcome_split (out : Outcome) (tid : Option String)
    (pre post : List Order) (o : Order)
    (h1 : o.transaction_id = tid)
    (h2 : ∀ o' ∈ pre, o'.transaction_id ≠ tid) :
    applyOutcome out tid ⟨pre ++ o :: post⟩ =
      ⟨pre ++ { o with payment_status := outcomePayStatus out,
                       status := outcomeOrderStatus out } :: post⟩ := by
  unfold applyOutcome
  congr 1
  rw [updateFirst_append_none _ _ pre (o :: post)
    (fun o' ho' => by simp [h2 o' ho'])]
  simp [updateFirst, h1]

/-- C1: for a store whose only order carrying transaction id X is o, the POST
payments success callback with tran_id = X sets that order to
payment_status completed and status confirmed, leaves every other order
unchanged, and responds with a 303 redirect whose URL ends in
/payment/success?transaction_id=X. -/
theorem payment_success_confirms_matching_order (fb X : String)
    (pre post : List Order) (o : Order)
    (h1 : o.transaction_id = some X)
    (h2 : ∀ o' ∈ pre, o'.transaction_id ≠ some X)
    (_h3 : ∀ o' ∈ post, o'.transaction_id ≠ some X) :
    paymentCallback Outcome.success fb (FormResult.ok (some X)) false
        ⟨pre ++ o :: post⟩ =
      (⟨pre ++ { o with payment_status := "completed",
                        status := "confirmed" } :: post⟩,
       ⟨fb ++ "/payment/success?transaction_id=" ++ X, 303⟩) := by
  simp only [paymentCallback, Bool.false_eq_true, if_false]
  rw [applyOutcome_split Outcome.success (some X) pre post o h1 h2]
  refine Prod.ext rfl (Redirect.mk.injEq .. ▸ ?_)
  simp only [outcomePage, strOfOptTran, Redirect.mk.injEq, and_true]
  rw [String.append_assoc fb, String.append_assoc fb]
  rfl

/-- C1 witness: a concrete one-order store with transaction id T1. -/
theorem payment_success_confirms_matching_order_witness :
    paymentCallback Outcome.success "http://f" (FormResult.ok (some "T1")) false
        ⟨[sampleOrderTid]⟩ =
      (⟨[{ sampleOrderTid with payment_status := "completed",
                               status := "confirmed" }]⟩,
       ⟨"http://f" ++ "/payment/success?transaction_id=" ++ "T1", 303⟩) :=
  payment_success_confirms_matching_order "http://f" "T1" [] [] sampleOrderTid
    rfl (by simp) (by simp)

/-- C5: delivering the same gateway outcome callback with the same form data
twice in a row leaves the same final store state as delivering it once, for
every store, outcome, and transaction id (including a missing one). -/
theorem callback_redelivery_idempotent (out : Outcome) (fb : String)
    (form : FormResult) (dbFails : Bool) (s : Store) :
    (paymentCallback out fb form dbFails
        (paymentCallback out fb form dbFails s).1).1 =
      (paymentCallback out fb form dbFails s).1 := by
  cases form with
  | exn => rfl
  | ok tid =>
      cases dbFails with
      | true => rfl
      | false =>
          simp only [paymentCallback, Bool.false_eq_true, if_false]
          unfold applyOutcome
          congr 1
          exact updateFirst_idem (fun o => decide (o.transaction_id = tid))
            (fun o => { o with payment_status := outcomePayStatus out,
                               status := outcomeOrderStatus out })
            (fun o => rfl) (fun o => rfl) s.orders

/-- C9: every callback handler, on every code path including form-parse and
database exceptions, responds with a 303 redirect either to the templated
front-end outcome URL or to the front-end error page. -/
theorem callbacks_always_redirect (out : Outcome) (fb : String)
    (form : FormResult) (dbFails : Bool) (s : Store) :
    (paymentCallback out fb form dbFails s).2.statusCode = 303 ∧
    ((∃ t : String, (paymentCallback out fb form dbFails s).2.url =
        fb ++ "/payment/" ++ outcomePage out ++ "?transaction_id=" ++ t) ∨
      (paymentCallback out fb form dbFails s).2.url = fb ++ "/payment/error") := by
  cases form with
  | exn => exact ⟨rfl, Or.inr rfl⟩
  | ok tid =>
      cases dbFails with
      | true => exact ⟨rfl, Or.inr rfl⟩
      | false => exact ⟨rfl, Or.inl ⟨strOfOptTran tid, rfl⟩⟩

/-- C10 counterexample: with two persisted orders both carrying a null
transaction id, a success callback whose form has no tran_id updates only the
first of them, so it is not the case that every such order is transitioned. -/
theorem missing_tid_callback_skips_second_null_order :
    ¬ (∀ o ∈ (paymentCallback Outcome.success "http://f" (FormResult.ok none)
          false ⟨[sampleOrder, sampleOrder2]⟩).1.orders,
        o.transaction_id = none →
          o.payment_status = "completed" ∧ o.status = "confirmed") := by
  decide

/-- C10 amended: a callback whose form carries no tran_id filters on a null
transaction id and transitions the first persisted order whose
transaction_id is null to the terminal state of that outcome, so it is not a
no-op on such stores; the redirect carries the literal text None as the
transaction id. -/
theorem missing_tid_callback_updates_first_null_order (out : Outcome)
    (fb : String) (pre post : List Order) (o : Order)
    (h1 : o.transaction_id = none)
    (h2 : ∀ o' ∈ pre, o'.transaction_id ≠ none) :
    paymentCallback out fb (FormResult.ok none) false ⟨pre ++ o :: post⟩ =
      (⟨pre ++ { o with payment_status := outcomePayStatus out,
                        status := outcomeOrderStatus out } :: post⟩,
       ⟨fb ++ "/payment/" ++ outcomePage out ++ "?transaction_id=None",
        303⟩) := by
  simp only [paymentCallback, Bool.false_eq_true, if_false]
  rw [applyOutcome_split out none pre post o h1 h2]
  refine Prod.ext rfl ?_
  simp only [strOfOptTran, Redirect.mk.injEq, and_true]
  rw [String.append_assoc]
  rfl

/-- C10 amended witness: an order fresh from POST /orders, hence with a null
transaction id, is confirmed by a success callback with no tran_id. -/
theorem missing_tid_callback_updates_first_null_order_witness :
    paymentCallback Outcome.success "http://f" (FormResult.ok none) false
        ⟨[sampleOrder]⟩ =
      (⟨[{ sampleOrder with payment_status := outcomePayStatus Outcome.success,
                            status := outcomeOrderStatus Outcome.success }]⟩,
       ⟨"http://f" ++ "/payment/" ++ outcomePage Outcome.success
          ++ "?transaction_id=None", 303⟩) :=
  missing_tid_callback_updates_first_null_order Outcome.success "http://f"
    [] [] sampleOrder rfl (by simp)

/-- C2: what the code actually does on an invalid order (empty items or
non-positive total): the inner HTTPException(400) is caught by the blanket
except clause, so the response is a 500 with the generic detail, and the
store is untouched (the no-persistence half of the claim holds). -/
theorem initiate_invalid_order_gives_500_no_persist (order : Order)
    (tid : String) (gw : GatewayReply) (s : Store)
    (h : order.items = [] ∨ order.total_amount ≤ 0) :
    initiate_payment order tid gw s =
      (s, InitiateResult.httpError 500 "Payment initiation failed") := by
  unfold initiate_payment
  rcases h with h | h
  · rw [if_pos h]
  · by_cases h2 : order.items = []
    · rw [if_pos h2]
    · rw [if_neg h2, if_pos h]

/-- C2 witness: the empty-items order of Scenario D against an empty store. -/
theorem initiate_invalid_order_gives_500_no_persist_witness :
    initiate_payment { sampleOrder with items := [] } "T9"
        (GatewayReply.json ⟨some "SUCCESS", none, none, none⟩) ⟨[]⟩ =
      (⟨[]⟩, InitiateResult.httpError 500 "Payment initiation failed") :=
  initiate_invalid_order_gives_500_no_persist _ _ _ _ (Or.inl rfl)

/-- C3: what the code actually does when the gateway reports non-SUCCESS for
a valid order: the order is persisted exactly as submitted (so with
payment_status pending and a null transaction id when it came in that way,
which the conjuncts about the inserted document record), but the
HTTPException(400, failedreason) is caught by the blanket except clause and
the response is a 500 with the generic detail, not a 400 carrying the
gateway reason. -/
theorem initiate_gateway_failure_gives_500_order_pending (order : Order)
    (tid : String) (r : GwJson) (s : Store)
    (h1 : order.items ≠ []) (h2 : 0 < order.total_amount)
    (h3 : r.status ≠ some "SUCCESS")
    (h4 : order.payment_status = "pending")
    (h5 : order.transaction_id = none) :
    initiate_payment order tid (GatewayReply.json r) s =
      (insertOne s order,
       InitiateResult.httpError 500 "Payment initiation failed") ∧
    order ∈ (initiate_payment order tid (GatewayReply.json r) s).1.orders ∧
    order.payment_status = "pending" ∧ order.transaction_id = none := by
  have hmain : initiate_payment order tid (GatewayReply.json r) s =
      (insertOne s order,
       InitiateResult.httpError 500 "Payment initiation failed") := by
    unfold initiate_payment
    rw [if_neg h1, if_neg (not_le.mpr h2)]
    simp only [create_payment_session, if_neg h3, Bool.false_eq_true,
      if_false]
  refine ⟨hmain, ?_, h4, h5⟩
  rw [hmain]
  simp [insertOne]

/-- C3 witness: Scenario B, a valid order with the gateway replying
status FAILED and failedreason Invalid amount. -/
theorem initiate_gateway_failure_gives_500_order_pending_witness :
    initiate_payment sampleOrder "T9"
        (GatewayReply.json ⟨some "FAILED", some "Invalid amount", none, none⟩)
        ⟨[]⟩ =
      (insertOne ⟨[]⟩ sampleOrder,
       InitiateResult.httpError 500 "Payment initiation failed") ∧
    sampleOrder ∈ (initiate_payment sampleOrder "T9"
        (GatewayReply.json ⟨some "FAILED", some "Invalid amount", none, none⟩)
        ⟨[]⟩).1.orders ∧
    sampleOrder.payment_status = "pending" ∧
    sampleOrder.transaction_id = none :=
  initiate_gateway_failure_gives_500_order_pending sampleOrder "T9"
    ⟨some "FAILED", some "Invalid amount", none, none⟩ ⟨[]⟩
    (by simp [sampleOrder]) (by norm_num [sampleOrder]) (by simp) rfl rfl

/-- C4: what the code actually does when no persisted order carries the
queried transaction id: the HTTPException(404, Transaction not found) is
caught by the blanket except clause, so the observable response is a 500
with the generic detail, not a 404. -/
theorem status_query_unknown_tid_gives_500 (tid : String) (s : Store)
    (h : ∀ o ∈ s.orders, o.transaction_id ≠ some tid) :
    get_payment_status tid s =
      StatusResult.httpError 500 "Status retrieval failed" := by
  have hn : s.orders.find? (fun o => decide (o.transaction_id = some tid))
      = none :=
    List.find?_eq_none.mpr (fun o ho => by simpa using h o ho)
  simp [get_payment_status, findFirst, hn]

/-- C4 witness: the status query for unknown-id against an empty store. -/
theorem status_query_unknown_tid_gives_500_witness :
    get_payment_status "unknown-id" ⟨[]⟩ =
      StatusResult.httpError 500 "Status retrieval failed" :=
  status_query_unknown_tid_gives_500 "unknown-id" ⟨[]⟩ (by simp)

/-- C6: on gateway success for a valid order whose id is fresh, payment
initiation appends the order and then sets its transaction_id only: the
stored document equals the submitted order with just that field attached, so
its status and payment_status stay at pending when they were submitted as
pending, and every other field is unchanged. -/
theorem initiate_success_sets_transaction_id_only (order : Order)
    (tid : String) (r : GwJson) (s : Store)
    (hst : r.status = some "SUCCESS")
    (h1 : order.items ≠ []) (h2 : 0 < order.total_amount)
    (hfresh : ∀ o ∈ s.orders, o.id ≠ order.id)
    (hp : order.status = "pending") (hq : order.payment_status = "pending") :
    initiate_payment order tid (GatewayReply.json r) s =
      (⟨s.orders ++ [{ order with transaction_id := some tid }]⟩,
       InitiateResult.ok tid r.gatewayPageURL r.sessionkey) ∧
    ({ order with transaction_id := some tid }).status = "pending" ∧
    ({ order with transaction_id := some tid }).payment_status = "pending" := by
  refine ⟨?_, hp, hq⟩
  unfold initiate_payment
  rw [if_neg h1, if_neg (not_le.mpr h2)]
  simp only [create_payment_session, if_pos hst, insertOne]
  rw [updateFirst_append_none _ _ s.orders [order]
    (fun o ho => by simp [hfresh o ho])]
  simp [updateFirst]

/-- C6 witness: Scenario A, the sample order with a SUCCESS gateway reply. -/
theorem initiate_success_sets_transaction_id_only_witness :
    initiate_payment sampleOrder "T9"
        (GatewayReply.json ⟨some "SUCCESS", none, some "sk", some "http://gw"⟩)
        ⟨[]⟩ =
      (⟨[] ++ [{ sampleOrder with transaction_id := some "T9" }]⟩,
       InitiateResult.ok "T9" (some "http://gw") (some "sk")) ∧
    ({ sampleOrder with transaction_id := some "T9" }).status = "pending" ∧
    ({ sampleOrder with transaction_id := some "T9" }).payment_status
      = "pending" :=
  initiate_success_sets_transaction_id_only sampleOrder "T9"
    ⟨some "SUCCESS", none, some "sk", some "http://gw"⟩ ⟨[]⟩
    rfl (by simp [sampleOrder]) (by norm_num [sampleOrder]) (by simp) rfl rfl

/-- C8: create_payment_session is total over every gateway behaviour (the
except branch of the source is the exn case, so nothing escapes to the
caller): the returned dictionary either reports success or carries an error
message, and any raised transport failure yields success false with the
descriptive Network error message. -/
theorem create_payment_session_soft_failure (tid : String)
    (gw : GatewayReply) :
    ((create_payment_session tid gw).success = true ∨
      (create_payment_session tid gw).error.isSome = true) ∧
    (∀ msg : String, create_payment_session tid (GatewayReply.exn msg) =
      { success := false, transaction_id := none, session_key := none,
        gateway_url := none, error := some ("Network error: " ++ msg) }) := by
  refine ⟨?_, fun msg => rfl⟩
  cases gw with
  | exn m => simp [create_payment_session]
  | json r =>
      by_cases h : r.status = some "SUCCESS" <;>
        simp [create_payment_session, h]

/-- Writing transaction_id alone preserves the lifecycle predicates. -/
theorem ok_write_tid (o : Order) (t : Option String)
    (h : statusOk o ∧ payOk o ∧ pairOk o) :
    statusOk { o with transaction_id := t } ∧
    payOk { o with transaction_id := t } ∧
    pairOk { o with transaction_id := t } := h

/-- The pair written by any callback is one of the allowed combinations. -/
theorem ok_callback_write (out : Outcome) (o : Order) :
    statusOk { o with payment_status := outcomePayStatus out,
                      status := outcomeOrderStatus out } ∧
    payOk { o with payment_status := outcomePayStatus out,
                   status := outcomeOrderStatus out } ∧
    pairOk { o with payment_status := outcomePayStatus out,
                    status := outcomeOrderStatus out } := by
  cases out with
  | success =>
      exact ⟨Or.inr (Or.inl rfl), Or.inr (Or.inl rfl),
        Or.inr (Or.inl ⟨rfl, rfl⟩)⟩
  | fail =>
      exact ⟨Or.inr (Or.inr rfl), Or.inr (Or.inr (Or.inl rfl)),
        Or.inr (Or.inr (Or.inl ⟨rfl, rfl⟩))⟩
  | cancel =>
      exact ⟨Or.inr (Or.inr rfl), Or.inr (Or.inr (Or.inr rfl)),
        Or.inr (Or.inr (Or.inr ⟨rfl, rfl⟩))⟩

/-- The store after payment initiation is the old store, the old store with
the order appended, or that with a transaction id written into the first
document matching the order id. -/
theorem initiate_store_cases (o0 : Order) (tid : String) (gw : GatewayReply)
    (s : Store) :
    (initiate_payment o0 tid gw s).1 = s ∨
    (initiate_payment o0 tid gw s).1 = insertOne s o0 ∨
    (initiate_payment o0 tid gw s).1 =
      ⟨updateFirst (fun o => decide (o.id = o0.id))
        (fun o => { o with
          transaction_id := (create_payment_session tid gw).transaction_id })
        (insertOne s o0).orders⟩ := by
  unfold initiate_payment
  by_cases hi : o0.items = []
  · rw [if_pos hi]; exact Or.inl rfl
  · rw [if_neg hi]
    by_cases ht : o0.total_amount ≤ 0
    · rw [if_pos ht]; exact Or.inl rfl
    · rw [if_neg ht]
      by_cases hsucc : (create_payment_session tid gw).success = true
      · refine Or.inr (Or.inr ?_)
        simp only [hsucc, if_true]
      · refine Or.inr (Or.inl ?_)
        simp only [hsucc, Bool.false_eq_true, if_false]

/-- Every document in the store after a callback is an old document or an old
document rewritten to the terminal pair of the outcome. -/
theorem callback_store_mem (out : Outcome) (fb : String) (form : FormResult)
    (dbFails : Bool) (s : Store) (o : Order)
    (ho : o ∈ (paymentCallback out fb form dbFails s).1.orders) :
    o ∈ s.orders ∨ ∃ o1 ∈ s.orders,
      o = { o1 with payment_status := outcomePayStatus out,
                    status := outcomeOrderStatus out } := by
  cases form with
  | exn => exact Or.inl ho
  | ok tid =>
      cases dbFails with
      | true => exact Or.inl ho
      | false =>
          simp only [paymentCallback, Bool.false_eq_true, if_false] at ho
          unfold applyOutcome at ho
          rcases updateFirst_mem _ _ _ _ ho with h1 | ⟨o1, hm, he⟩
          · exact Or.inl h1
          · exact Or.inr ⟨o1, hm, he⟩

/-- C7 counterexample: the claim quantifies over all states reachable through
the public operations, but POST /orders persists the client-supplied order
verbatim, its lifecycle fields being plain strings; inserting an order with
status shipped and payment_status paid yields a reachable state that breaks
the enumeration. -/
theorem reachable_lifecycle_invariant_fails_as_stated :
    ¬ (∀ s : Store, Reachable s → ∀ o ∈ s.orders,
        statusOk o ∧ payOk o ∧ pairOk o) := by
  intro h
  have hr : Reachable (stepStore ⟨[]⟩ (Event.createOrder badOrder)) :=
    Reachable.step ⟨[]⟩ (Event.createOrder badOrder) Reachable.init
  have hm : badOrder ∈ (stepStore ⟨[]⟩ (Event.createOrder badOrder)).orders := by
    simp [stepStore, create_order, insertOne]
  have hbad := (h _ hr badOrder hm).1
  simp only [statusOk] at hbad
  have hstat : badOrder.status = "shipped" := rfl
  rcases hbad with h1 | h1 | h1 <;> rw [hstat] at h1 <;>
    exact absurd h1 (by decide)

/-- C7 amended: in every state reachable through the public operations in
which each submitted order starts at the initial pending/pending lifecycle
values, every persisted order has status in the business enumeration,
payment_status in the payment enumeration, and the pair is one of the four
allowed combinations. -/
theorem reachableG_lifecycle_invariant (s : Store) (hs : ReachableG s) :
    ∀ o ∈ s.orders, statusOk o ∧ payOk o ∧ pairOk o := by
  induction hs with
  | init => intro o ho; exact absurd ho (List.not_mem_nil o)
  | step s' e hs' hg ih =>
      intro o ho
      cases e with
      | createOrder o0 =>
          obtain ⟨ha, hb⟩ := hg
          simp only [stepStore, create_order, insertOne] at ho
          rcases List.mem_append.mp ho with h1 | h1
          · exact ih o h1
          · have he : o = o0 := by simpa using h1
            subst he
            exact ⟨Or.inl ha, Or.inl hb, Or.inl ⟨ha, hb⟩⟩
      | initiatePayment o0 tid gw =>
          obtain ⟨ha, hb⟩ := hg
          have hok0 : statusOk o0 ∧ payOk o0 ∧ pairOk o0 :=
            ⟨Or.inl ha, Or.inl hb, Or.inl ⟨ha, hb⟩⟩
          simp only [stepStore] at ho
          rcases initiate_store_cases o0 tid gw s' with hc | hc | hc <;>
            rw [hc] at ho
          · exact ih o ho
          · have h01 : o ∈ s'.orders ∨ o = o0 := by simpa [insertOne] using ho
            rcases h01 with h1 | h1
            · exact ih o h1
            · subst h1; exact hok0
          · rcases updateFirst_mem _ _ _ _ ho with h1 | ⟨o1, hm, he⟩
            · have h01 : o ∈ s'.orders ∨ o = o0 := by
                simpa [insertOne] using h1
              rcases h01 with h2 | h2
              · exact ih o h2
              · subst h2; exact hok0
            · subst he
              refine ok_write_tid o1 _ ?_
              have h01 : o1 ∈ s'.orders ∨ o1 = o0 := by
                simpa [insertOne] using hm
              rcases h01 with h2 | h2
              · exact ih o1 h2
              · subst h2; exact hok0
      | gwCallback out fb form dbFails =>
          simp only [stepStore] at ho
          rcases callback_store_mem out fb form dbFails s' o ho
            with h1 | ⟨o1, _, he⟩
          · exact ih o h1
          · subst he
            exact ok_callback_write out o1

/-- C7 amended witness: one pending order inserted through POST /orders then
hit by a success callback keeps the sample order inside the enumerations. -/
theorem reachableG_lifecycle_invariant_witness :
    statusOk sampleOrder ∧ payOk sampleOrder ∧ pairOk sampleOrder :=
  reachableG_lifecycle_invariant
    (stepStore ⟨[]⟩ (Event.createOrder sampleOrder))
    (ReachableG.step ⟨[]⟩ (Event.createOrder sampleOrder) ReachableG.init
      ⟨rfl, rfl⟩)
    sampleOrder (by simp [stepStore, create_order, insertOne])

end TeaShop
